import Mathlib

/-!
Verification of the drone edge tier core components against their
specification: the fail-safe connectivity state machine, the mission
executor, the obstacle-avoidance classifier, the MQTT store-and-forward
buffer, the MAVLink bridge connection guards, the configuration
validation, and the haversine distance used for arrival detection.

Each definition is a shallow embedding of the corresponding Python
source (src/edge/...): pure functions become Lean functions, stateful
methods become explicit state-passing functions, raised exceptions
become `Except` errors, and mutable-state reads that an external actor
can race with (the executor's `_state` field during polling) are fed in
as an explicit observation trace.  Real-valued quantities carried by
the control logic are modelled with `ℚ` so that every control decision
is decidable; the haversine formula itself, being built from
transcendental functions, is modelled over `ℝ`.
-/

namespace DroneEdge

/-! ## Data model: enumerations (src/edge/.../models.py) -/

/-- `ExecutorState` from src/edge/mission_executor/models.py. -/
inductive ExecutorState where
  | IDLE
  | LOADING
  | EXECUTING
  | PAUSED
  | COMPLETING
  | COMPLETED
  | ABORTED
deriving DecidableEq, Repr

/-- `FailSafeState` from src/edge/mission_executor/fail_safe.py. -/
inductive FailSafeState where
  | CONNECTED
  | DEGRADED
  | HOLDING
  | RETURNING
deriving DecidableEq, Repr

/-- `AutopilotState` from src/edge/mavlink_bridge/models.py. -/
inductive AutopilotState where
  | DISCONNECTED
  | CONNECTING
  | CONNECTED
  | ARMED
  | FLYING
  | LANDING
  | LANDED
deriving DecidableEq, Repr

/-- `ObstacleSeverity` from src/edge/obstacle_avoidance/models.py. -/
inductive ObstacleSeverity where
  | NONE
  | LOW
  | MEDIUM
  | HIGH
  | CRITICAL
deriving DecidableEq, Repr

/-! ## Data model: records -/

/-- `Waypoint` from src/edge/mission_executor/models.py. -/
structure Waypoint where
  latitude : ℚ
  longitude : ℚ
  altitude : ℚ
  speed : ℚ := 5
  loiterTimeSeconds : ℕ := 0
deriving DecidableEq, Repr

/-- `MissionSegment` from src/edge/mission_executor/models.py. -/
structure MissionSegment where
  segmentId : String
  missionId : String
  waypoints : List Waypoint
  captureImages : Bool := true
deriving DecidableEq, Repr

/-- `TelemetryData` from src/edge/mavlink_bridge/models.py. -/
structure TelemetryData where
  latitude : ℚ
  longitude : ℚ
  altitude : ℚ
  heading : ℚ
  groundSpeed : ℚ
  verticalSpeed : ℚ
  batteryVoltage : ℚ
  batteryRemaining : ℤ
  gpsFixType : ℤ
  satellitesVisible : ℤ
deriving DecidableEq, Repr

/-- `DepthFrame` from src/edge/obstacle_avoidance/models.py. -/
structure DepthFrame where
  width : ℕ
  height : ℕ
  minDistanceMeters : ℚ
  maxDistanceMeters : ℚ
  timestampMs : ℕ
deriving DecidableEq, Repr

/-- `ObstacleDetection` from src/edge/obstacle_avoidance/models.py. -/
structure ObstacleDetection where
  distanceMeters : ℚ
  bearingDegrees : ℚ
  severity : ObstacleSeverity
  widthMeters : ℚ
  heightMeters : ℚ
deriving DecidableEq, Repr

/-- `AvoidanceManeuver` from src/edge/obstacle_avoidance/models.py. -/
structure AvoidanceManeuver where
  maneuverType : String
  magnitudeMeters : ℚ
  durationSeconds : ℚ
  priority : ℕ
deriving DecidableEq, Repr

/-! ## Fail-safe manager (src/edge/mission_executor/fail_safe.py)

`FailSafeManager._handle_disconnected` reads `time.monotonic()`; here the
current monotonic time is passed explicitly as a `ℚ` argument. -/

/-- The mutable state of `FailSafeManager`: the three configured thresholds
(from `EdgeSettings`), the current `FailSafeState`, and the
`_disconnected_since` timestamp (`None` while connected). -/
structure FailSafeManager where
  degradedThresholdSeconds : ℚ
  holdingThresholdSeconds : ℚ
  returnThresholdSeconds : ℚ
  state : FailSafeState
  disconnectedSince : Option ℚ
deriving DecidableEq, Repr

/-- `FailSafeManager.__init__`: state `CONNECTED`, no disconnection timer. -/
def mkFailSafeManager (degraded holding ret : ℚ) : FailSafeManager :=
  { degradedThresholdSeconds := degraded
    holdingThresholdSeconds := holding
    returnThresholdSeconds := ret
    state := .CONNECTED
    disconnectedSince := none }

/-- `FailSafeManager._handle_connected`: force `CONNECTED`, clear the timer. -/
def handleConnected (m : FailSafeManager) : FailSafeManager :=
  { m with state := .CONNECTED, disconnectedSince := none }

/-- `FailSafeManager._handle_disconnected` at monotonic time `now`:
start the timer if it is not running, then compare the elapsed time
against the return/holding/degraded thresholds in that order. -/
def handleDisconnected (m : FailSafeManager) (now : ℚ) : FailSafeManager :=
  let since := m.disconnectedSince.getD now
  let elapsed := now - since
  if elapsed ≥ m.returnThresholdSeconds then
    { m with disconnectedSince := some since, state := .RETURNING }
  else if elapsed ≥ m.holdingThresholdSeconds then
    { m with disconnectedSince := some since, state := .HOLDING }
  else if elapsed ≥ m.degradedThresholdSeconds then
    { m with disconnectedSince := some since, state := .DEGRADED }
  else
    { m with disconnectedSince := some since }

/-- `FailSafeManager.update_connectivity` at monotonic time `now`. -/
def updateConnectivity (m : FailSafeManager) (isConnected : Bool) (now : ℚ) :
    FailSafeManager :=
  if isConnected then handleConnected m else handleDisconnected m now

/-- Severity rank of a fail-safe state:
`Connected < Degraded < Holding < Returning`. -/
def FailSafeState.sev : FailSafeState → ℕ
  | .CONNECTED => 0
  | .DEGRADED => 1
  | .HOLDING => 2
  | .RETURNING => 3

/-- The state the threshold chain of `_handle_disconnected` selects for an
elapsed disconnection time `e` (with `CONNECTED` meaning no threshold was
crossed): the highest-severity branch whose threshold `e` has reached. -/
def escalation (td th tr e : ℚ) : FailSafeState :=
  if e ≥ tr then .RETURNING
  else if e ≥ th then .HOLDING
  else if e ≥ td then .DEGRADED
  else .CONNECTED

/-- Reachability invariant of the fail-safe manager, anchored at a
monotonic time `now` not earlier than any update performed so far:
while the timer is clear the state is `CONNECTED`, and while the timer
runs the state is no more severe than what the elapsed time warrants. -/
def InvAt (m : FailSafeManager) (now : ℚ) : Prop :=
  (m.disconnectedSince = none → m.state = .CONNECTED) ∧
  ∀ t0, m.disconnectedSince = some t0 →
    m.state.sev ≤ (escalation m.degradedThresholdSeconds m.holdingThresholdSeconds
      m.returnThresholdSeconds (now - t0)).sev

/-! ## Mission executor (src/edge/mission_executor/executor.py)

`MissionExecutor` holds `_state`, `_current_segment`, `_current_waypoint_index`
and `_arrival_threshold_meters`.  The `_state` field is read repeatedly inside
`execute()`'s polling loops and can be overwritten concurrently by `pause()` /
`abort()` (the tests do exactly that from the telemetry stub); each poll
iteration therefore consumes one `PollObs` carrying the value of `_state`
observed at that iteration and the outcome of that iteration's
`get_telemetry()` call (`none` for a swallowed `ConnectionError` /
`TimeoutError`).  The `_has_arrived` haversine test is passed in as the
boolean predicate `arrivedFn`, keeping the loop structure itself exact. -/

/-- Exceptions raised by `MissionExecutor` methods. -/
inductive ExecError where
  | runtimeError
  | valueError
deriving DecidableEq, Repr

/-- The mutable fields of `MissionExecutor`. -/
structure MissionExecutor where
  state : ExecutorState
  currentSegment : Option MissionSegment
  currentWaypointIndex : ℕ
  arrivalThresholdMeters : ℚ
deriving DecidableEq, Repr

/-- `_DEFAULT_ARRIVAL_THRESHOLD_METERS`. -/
def defaultArrivalThresholdMeters : ℚ := 2

/-- `MissionExecutor.__init__`. -/
def mkMissionExecutor : MissionExecutor :=
  { state := .IDLE
    currentSegment := none
    currentWaypointIndex := 0
    arrivalThresholdMeters := defaultArrivalThresholdMeters }

/-- `MissionExecutor.load_segment`, in state-passing style: the executor
and either `()` or the exception raised.  The state check is made first
(`RuntimeError`), then the empty-waypoint check (`ValueError`); only then
are the state, segment and index fields assigned (the transient `LOADING`
assignment is immediately overwritten by `EXECUTING`). -/
def loadSegment (m : MissionExecutor) (segment : MissionSegment) :
    MissionExecutor × Except ExecError Unit :=
  if m.state = .IDLE ∨ m.state = .COMPLETED ∨ m.state = .ABORTED then
    if segment.waypoints.isEmpty then (m, .error .valueError)
    else
      ({ m with
          state := .EXECUTING
          currentSegment := some segment
          currentWaypointIndex := 0 }, .ok ())
  else (m, .error .runtimeError)

/-- One polling iteration's view of the world: the value of the mutable
`_state` field at the iteration's state check, and the telemetry returned
by `get_telemetry()` (`none` when it raised and the loop retries). -/
structure PollObs where
  state : ExecutorState
  telemetry : Option TelemetryData
deriving DecidableEq, Repr

/-- How a `_navigate_to_waypoint` call ended: interrupted by an observed
`PAUSED`/`ABORTED`, returned on arrival, or ran out of observations while
still polling. -/
inductive NavOutcome where
  | interrupted
  | arrived
  | stuck
deriving DecidableEq, Repr

/-- The polling loop of `MissionExecutor._navigate_to_waypoint`: on each
iteration, first return if the observed state is `PAUSED` or `ABORTED`;
otherwise read telemetry, retrying on failure, and return once
`_has_arrived` (passed in as `arrivedFn`) holds.  Returns the outcome, the
last observed `_state` value, and the unconsumed observations. -/
def navigateLoop (arrivedFn : Waypoint → TelemetryData → Bool) (wp : Waypoint)
    (st : ExecutorState) :
    List PollObs → NavOutcome × ExecutorState × List PollObs
  | [] => (.stuck, st, [])
  | o :: rest =>
    if o.state = .PAUSED ∨ o.state = .ABORTED then (.interrupted, o.state, rest)
    else
      match o.telemetry with
      | none => navigateLoop arrivedFn wp o.state rest
      | some t =>
        if arrivedFn wp t then (.arrived, o.state, rest)
        else navigateLoop arrivedFn wp o.state rest

/-- The waypoint loop of `MissionExecutor.execute`: while the index is in
range, return if the state is `PAUSED` or `ABORTED`; otherwise navigate to
the current waypoint and — however `_navigate_to_waypoint` returned —
increment `_current_waypoint_index` (the loiter sleep has no modelled
effect).  When the index leaves the range the state is set to `COMPLETED`.
A `stuck` navigation (observations exhausted mid-poll) stops the model with
the executor as it stands at that point. -/
def executeLoop (arrivedFn : Waypoint → TelemetryData → Bool)
    (segment : MissionSegment) (m : MissionExecutor) (obs : List PollObs) :
    MissionExecutor × List PollObs :=
  if h : m.currentWaypointIndex < segment.waypoints.length then
    if m.state = .PAUSED then (m, obs)
    else if m.state = .ABORTED then (m, obs)
    else
      let wp := segment.waypoints.get ⟨m.currentWaypointIndex, h⟩
      match navigateLoop arrivedFn wp m.state obs with
      | (.stuck, st, rest) => ({ m with state := st }, rest)
      | (.interrupted, st, rest) =>
        executeLoop arrivedFn segment
          { m with state := st, currentWaypointIndex := m.currentWaypointIndex + 1 }
          rest
      | (.arrived, st, rest) =>
        executeLoop arrivedFn segment
          { m with state := st, currentWaypointIndex := m.currentWaypointIndex + 1 }
          rest
  else ({ m with state := .COMPLETED }, obs)
termination_by segment.waypoints.length - m.currentWaypointIndex
decreasing_by all_goals simp_wf; omega

/-- `MissionExecutor.execute`: requires `EXECUTING` (`RuntimeError`
otherwise), requires a loaded segment (`_require_segment`), then runs the
waypoint loop. -/
def execute (arrivedFn : Waypoint → TelemetryData → Bool)
    (m : MissionExecutor) (obs : List PollObs) :
    MissionExecutor × Except ExecError Unit :=
  if m.state ≠ .EXECUTING then (m, .error .runtimeError)
  else
    match m.currentSegment with
    | none => (m, .error .runtimeError)
    | some segment => ((executeLoop arrivedFn segment m obs).1, .ok ())

/-! ## Obstacle avoidance (src/edge/obstacle_avoidance/avoidance.py) -/

/-- `_CRITICAL_RATIO`. -/
def criticalRatioBound : ℚ := 1/5

/-- `_HIGH_RATIO`. -/
def highRatioBound : ℚ := 2/5

/-- `_MEDIUM_RATIO`. -/
def mediumRatioBound : ℚ := 3/5

/-- `_LOW_RATIO`. -/
def lowRatioBound : ℚ := 4/5

/-- `_BEARING_CENTER_THRESHOLD_DEGREES`. -/
def bearingCenterThresholdDegrees : ℚ := 15

/-- Maneuver type name constants from avoidance.py. -/
def maneuverHold : String := "hold"

/-- `_MANEUVER_CLIMB`. -/
def maneuverClimb : String := "climb"

/-- `_MANEUVER_LATERAL_LEFT`. -/
def maneuverLateralLeft : String := "lateral_left"

/-- `_MANEUVER_LATERAL_RIGHT`. -/
def maneuverLateralRight : String := "lateral_right"

/-- The classifier's configuration, read from `EdgeSettings`:
`obstacle_detection_range_meters` and `minimum_clearance_meters`. -/
structure ObstacleAvoidance where
  detectionRangeMeters : ℚ
  minimumClearanceMeters : ℚ
deriving DecidableEq, Repr

/-- `ObstacleAvoidance._classify_severity`. -/
def classifySeverity (distance detectionRange : ℚ) : ObstacleSeverity :=
  if detectionRange ≤ 0 then .NONE
  else
    let r := distance / detectionRange
    if r ≤ criticalRatioBound then .CRITICAL
    else if r ≤ highRatioBound then .HIGH
    else if r ≤ mediumRatioBound then .MEDIUM
    else if r ≤ lowRatioBound then .LOW
    else .NONE

/-- `ObstacleAvoidance._estimate_obstacle_width`. -/
def estimateObstacleWidth (frame : DepthFrame) : ℚ :=
  if frame.maxDistanceMeters ≤ 0 then 1
  else
    let depthRange := frame.maxDistanceMeters - frame.minDistanceMeters
    let coverage := 1 - depthRange / frame.maxDistanceMeters
    max (1/2) (coverage * frame.minDistanceMeters * (1/2))

/-- `ObstacleAvoidance._estimate_bearing`: aggregate frames carry no
lateral information, so the bearing is always 0. -/
def estimateBearing (_frame : DepthFrame) : ℚ := 0

/-- `ObstacleAvoidance.process_depth_frame`. -/
def processDepthFrame (oa : ObstacleAvoidance) (frame : DepthFrame) :
    List ObstacleDetection :=
  if frame.minDistanceMeters ≤ 0 then []
  else if frame.minDistanceMeters > oa.detectionRangeMeters then []
  else
    let severity := classifySeverity frame.minDistanceMeters oa.detectionRangeMeters
    if severity ≠ .NONE then
      let w := estimateObstacleWidth frame
      [{ distanceMeters := frame.minDistanceMeters
         bearingDegrees := estimateBearing frame
         severity := severity
         widthMeters := w
         heightMeters := w * (3/4) }]
    else []

/-- `ObstacleAvoidance._choose_lateral_direction`. -/
def chooseLateralDirection (bearingDegrees : ℚ) : String :=
  if bearingDegrees > bearingCenterThresholdDegrees then maneuverLateralLeft
  else if bearingDegrees < -bearingCenterThresholdDegrees then maneuverLateralRight
  else maneuverClimb

/-- `ObstacleAvoidance._select_maneuver`. -/
def selectManeuver (detection : ObstacleDetection) : AvoidanceManeuver :=
  if detection.severity = .CRITICAL then
    { maneuverType := maneuverHold
      magnitudeMeters := 0
      durationSeconds := 2
      priority := 10 }
  else if detection.severity = .HIGH then
    { maneuverType := maneuverClimb
      magnitudeMeters := 5
      durationSeconds := 3
      priority := 8 }
  else
    { maneuverType := chooseLateralDirection detection.bearingDegrees
      magnitudeMeters := 3
      durationSeconds := 5/2
      priority := if detection.severity = .MEDIUM then 5 else 2 }

/-- Stable insertion of a detection into a distance-sorted list (kept
before later elements with an equal distance). -/
def insertByDistance (d : ObstacleDetection) :
    List ObstacleDetection → List ObstacleDetection
  | [] => [d]
  | x :: xs =>
    if d.distanceMeters ≤ x.distanceMeters then d :: x :: xs
    else x :: insertByDistance d xs

/-- Python's stable `sorted(detections, key=distance_meters)`. -/
def sortByDistance (detections : List ObstacleDetection) :
    List ObstacleDetection :=
  detections.foldr insertByDistance []

/-- `ObstacleAvoidance.compute_avoidance`. -/
def computeAvoidance (oa : ObstacleAvoidance)
    (detections : List ObstacleDetection) : Option AvoidanceManeuver :=
  if detections.isEmpty then none
  else
    match sortByDistance detections with
    | [] => none
    | mostCritical :: _ =>
      if mostCritical.severity = .NONE then none
      else if mostCritical.distanceMeters ≥ oa.minimumClearanceMeters then none
      else some (selectManeuver mostCritical)

/-! ## Store-and-forward channel (src/edge/cloud_connector/connector.py) -/

/-- `_MAX_BUFFER_SIZE`. -/
def maxBufferSize : ℕ := 1000

/-- `CloudConnector._buffer_message`: drop the oldest entry when the
buffer is full, then append the new `(topic, payload)` pair. -/
def bufferMessage (buffer : List (String × String)) (topic payload : String) :
    List (String × String) :=
  if buffer.length ≥ maxBufferSize then buffer.tail ++ [(topic, payload)]
  else buffer ++ [(topic, payload)]

/-- `CloudConnector.publish_telemetry` on an already-serialized
`(topic, payload)`: buffered when disconnected, published (`some`)
immediately when connected. -/
def publishMessage (isConnected : Bool) (buffer : List (String × String))
    (topic payload : String) :
    List (String × String) × Option (String × String) :=
  if !isConnected then (bufferMessage buffer topic payload, none)
  else (buffer, some (topic, payload))

/-- `CloudConnector._drain_buffer`: the messages published by the drain,
in order, and the buffer afterwards (the early return on an empty buffer
publishes nothing). -/
def drainBuffer (buffer : List (String × String)) :
    List (String × String) × List (String × String) :=
  if buffer.isEmpty then ([], buffer)
  else (buffer, [])

/-- A sequence of `publish_telemetry` calls made while disconnected. -/
def bufferAll (buffer : List (String × String))
    (msgs : List (String × String)) : List (String × String) :=
  msgs.foldl (fun b msg => bufferMessage b msg.1 msg.2) buffer

/-! ## Configuration validation (src/edge/config.py)

The fail-safe threshold fields of `EdgeSettings` and the pydantic `Field`
range constraints validated at startup:
`degraded_threshold_seconds: int = Field(default=10, ge=5, le=60)`,
`holding_threshold_seconds: int = Field(default=30, ge=15, le=120)`,
`return_threshold_seconds: int = Field(default=120, ge=60, le=600)`. -/

/-- The three fail-safe threshold settings as supplied at startup. -/
structure FailSafeThresholdConfig where
  degradedThresholdSeconds : ℤ
  holdingThresholdSeconds : ℤ
  returnThresholdSeconds : ℤ
deriving DecidableEq, Repr

/-- Whether startup validation accepts the three fail-safe thresholds:
the conjunction of the per-field `ge`/`le` bounds pydantic checks. -/
def validateFailSafeThresholds (c : FailSafeThresholdConfig) : Bool :=
  (decide (5 ≤ c.degradedThresholdSeconds) && decide (c.degradedThresholdSeconds ≤ 60)) &&
  (decide (15 ≤ c.holdingThresholdSeconds) && decide (c.holdingThresholdSeconds ≤ 120)) &&
  (decide (60 ≤ c.returnThresholdSeconds) && decide (c.returnThresholdSeconds ≤ 600))

/-- The default thresholds (10 / 30 / 120 seconds). -/
def defaultFailSafeThresholds : FailSafeThresholdConfig :=
  { degradedThresholdSeconds := 10
    holdingThresholdSeconds := 30
    returnThresholdSeconds := 120 }

/-! ## MAVLink bridge (src/edge/mavlink_bridge/bridge.py)

The bridge owns `_connection : mavfile | None` and `_state`.  The wire
connection is modelled by the data an operation reads from it: the
autopilot's mode-name map for `set_mode`, and the three telemetry
messages `get_telemetry` waits for (`none` when the 5 s wait times out).
Raw wire fields are integers, converted to engineering units by the
scale constants of the source. -/

/-- A raw `GLOBAL_POSITION_INT` message (fixed-point wire fields). -/
structure PositionIntMsg where
  lat : ℤ
  lon : ℤ
  relativeAlt : ℤ
  hdg : ℤ
  vx : ℤ
  vz : ℤ
deriving DecidableEq, Repr

/-- A raw `SYS_STATUS` message. -/
structure SysStatusMsg where
  voltageBattery : ℤ
  batteryRemaining : ℤ
deriving DecidableEq, Repr

/-- A raw `GPS_RAW_INT` message. -/
structure GpsRawMsg where
  fixType : ℤ
  satellitesVisible : ℤ
deriving DecidableEq, Repr

/-- The observable behaviour of an open `mavfile` connection. -/
structure MavConnection where
  modeMapping : List (String × ℕ)
  positionMsg : Option PositionIntMsg
  sysStatusMsg : Option SysStatusMsg
  gpsRawMsg : Option GpsRawMsg
deriving DecidableEq, Repr

/-- Exceptions raised by bridge operations: `ConnectionError`,
`TimeoutError` (naming the missing message kind), `ValueError`. -/
inductive BridgeError where
  | connectionError
  | timeoutError (missing : String)
  | valueError
deriving DecidableEq, Repr

/-- The mutable fields of `MavlinkBridge`. -/
structure MavlinkBridge where
  connection : Option MavConnection
  state : AutopilotState
deriving DecidableEq, Repr

/-- `MavlinkBridge._require_connection`. -/
def requireConnection (b : MavlinkBridge) : Except BridgeError Unit :=
  if b.connection = none ∨ b.state = .DISCONNECTED then .error .connectionError
  else .ok ()

/-- `MavlinkBridge._get_connection`. -/
def getConnection (b : MavlinkBridge) : Except BridgeError MavConnection :=
  match b.connection with
  | none => .error .connectionError
  | some c => .ok c

/-- `MavlinkBridge.get_telemetry`: three sequential bounded message waits
(position, system status, GPS), each raising `TimeoutError` when
exhausted; wire fields scaled to engineering units (coordinates 1e-7,
altitude/speed 1e-2, heading 1e-2, voltage 1e-3; ground speed clamped
to be nonnegative). -/
def getTelemetry (b : MavlinkBridge) :
    MavlinkBridge × Except BridgeError TelemetryData :=
  match requireConnection b with
  | .error e => (b, .error e)
  | .ok _ =>
    match getConnection b with
    | .error e => (b, .error e)
    | .ok c =>
      match c.positionMsg with
      | none => (b, .error (.timeoutError "GLOBAL_POSITION_INT"))
      | some pos =>
        match c.sysStatusMsg with
        | none => (b, .error (.timeoutError "SYS_STATUS"))
        | some status =>
          match c.gpsRawMsg with
          | none => (b, .error (.timeoutError "GPS_RAW_INT"))
          | some gps =>
            (b, .ok
              { latitude := (pos.lat : ℚ) / 10000000
                longitude := (pos.lon : ℚ) / 10000000
                altitude := (pos.relativeAlt : ℚ) / 100
                heading := (pos.hdg : ℚ) / 100
                groundSpeed := max 0 ((pos.vx : ℚ) / 100)
                verticalSpeed := (pos.vz : ℚ) / 100
                batteryVoltage := (status.voltageBattery : ℚ) / 1000
                batteryRemaining := status.batteryRemaining
                gpsFixType := gps.fixType
                satellitesVisible := gps.satellitesVisible })

/-- `MavlinkBridge.arm`: requires a connection, blocks until the motors
confirm, then transitions to `ARMED`. -/
def arm (b : MavlinkBridge) : MavlinkBridge × Except BridgeError Unit :=
  match requireConnection b with
  | .error e => (b, .error e)
  | .ok _ =>
    match getConnection b with
    | .error e => (b, .error e)
    | .ok _ => ({ b with state := .ARMED }, .ok ())

/-- `MavlinkBridge.disarm`: back to `CONNECTED`. -/
def disarm (b : MavlinkBridge) : MavlinkBridge × Except BridgeError Unit :=
  match requireConnection b with
  | .error e => (b, .error e)
  | .ok _ =>
    match getConnection b with
    | .error e => (b, .error e)
    | .ok _ => ({ b with state := .CONNECTED }, .ok ())

/-- `MavlinkBridge.set_mode`: mode-name lookup in the autopilot's mapping,
`ValueError` on an unknown name; the state is not changed. -/
def setMode (b : MavlinkBridge) (mode : String) :
    MavlinkBridge × Except BridgeError Unit :=
  match requireConnection b with
  | .error e => (b, .error e)
  | .ok _ =>
    match getConnection b with
    | .error e => (b, .error e)
    | .ok c =>
      match c.modeMapping.lookup mode with
      | none => (b, .error .valueError)
      | some _ => (b, .ok ())

/-- `MavlinkBridge.goto`: sends an immediate waypoint and marks `FLYING`. -/
def goto (b : MavlinkBridge) (_latitude _longitude _altitude : ℚ) :
    MavlinkBridge × Except BridgeError Unit :=
  match requireConnection b with
  | .error e => (b, .error e)
  | .ok _ =>
    match getConnection b with
    | .error e => (b, .error e)
    | .ok _ => ({ b with state := .FLYING }, .ok ())

/-- `MavlinkBridge.takeoff`: sends the takeoff command and marks `FLYING`. -/
def takeoff (b : MavlinkBridge) (_altitude : ℚ) :
    MavlinkBridge × Except BridgeError Unit :=
  match requireConnection b with
  | .error e => (b, .error e)
  | .ok _ =>
    match getConnection b with
    | .error e => (b, .error e)
    | .ok _ => ({ b with state := .FLYING }, .ok ())

/-- `MavlinkBridge.land`: delegates to `set_mode("LAND")`, then marks
`LANDING` (so a failed `set_mode` leaves the state alone). -/
def land (b : MavlinkBridge) : MavlinkBridge × Except BridgeError Unit :=
  match setMode b "LAND" with
  | (b1, .error e) => (b1, .error e)
  | (b1, .ok _) => ({ b1 with state := .LANDING }, .ok ())

/-- `MavlinkCommand` from src/edge/mavlink_bridge/models.py (parameter
values are floats on the wire, modelled as `ℚ`). -/
structure MavlinkCommand where
  commandType : String
  parameters : List (String × ℚ)
  targetSystem : ℤ := 1
  targetComponent : ℤ := 1
deriving DecidableEq, Repr

/-- Python's `int(x)` on a float: truncation toward zero. -/
def truncToInt (q : ℚ) : ℤ :=
  if 0 ≤ q then ⌊q⌋ else ⌈q⌉

/-- `MavlinkBridge.send_command`: check the connection, then dispatch on
the command-type tag; an unknown tag or a missing required parameter is a
`ValueError`.  The `SET_MODE` handler stringifies its float parameter via
`str(int(mode))`; `RTL` sets mode `"RTL"` then marks `FLYING`. -/
def sendCommand (b : MavlinkBridge) (cmd : MavlinkCommand) :
    MavlinkBridge × Except BridgeError Unit :=
  match requireConnection b with
  | .error e => (b, .error e)
  | .ok _ =>
    if cmd.commandType = "ARM" then arm b
    else if cmd.commandType = "DISARM" then disarm b
    else if cmd.commandType = "SET_MODE" then
      match cmd.parameters.lookup "mode" with
      | none => (b, .error .valueError)
      | some v => setMode b (toString (truncToInt v))
    else if cmd.commandType = "TAKEOFF" then
      match cmd.parameters.lookup "altitude" with
      | none => (b, .error .valueError)
      | some v => takeoff b v
    else if cmd.commandType = "GOTO" then
      match cmd.parameters.lookup "latitude", cmd.parameters.lookup "longitude",
          cmd.parameters.lookup "altitude" with
      | some la, some lo, some al => goto b la lo al
      | _, _, _ => (b, .error .valueError)
    else if cmd.commandType = "LAND" then land b
    else if cmd.commandType = "RTL" then
      match setMode b "RTL" with
      | (b1, .error e) => (b1, .error e)
      | (b1, .ok _) => ({ b1 with state := .FLYING }, .ok ())
    else (b, .error .valueError)

/-! ## Haversine distance (`_haversine_distance` in executor.py)

The formula is built from transcendental functions, so it is modelled
over `ℝ` with Mathlib's `Real.sin`, `Real.cos`, `Real.arctan` and
`Real.sqrt`; `math.atan2` is the standard two-argument arctangent. -/

/-- `_EARTH_RADIUS_METERS`. -/
def earthRadiusMeters : ℝ := 6371000

/-- `_DEGREES_TO_RADIANS` (`math.pi / 180.0`). -/
noncomputable def degreesToRadians : ℝ := Real.pi / 180

/-- `math.atan2 y x`: the angle of the point `(x, y)`, by the standard
piecewise definition in terms of the one-argument arctangent. -/
noncomputable def atan2 (y x : ℝ) : ℝ :=
  if 0 < x then Real.arctan (y / x)
  else if x < 0 ∧ 0 ≤ y then Real.arctan (y / x) + Real.pi
  else if x < 0 ∧ y < 0 then Real.arctan (y / x) - Real.pi
  else if x = 0 ∧ 0 < y then Real.pi / 2
  else if x = 0 ∧ y < 0 then -(Real.pi / 2)
  else 0

/-- `_haversine_distance`: spherical law of haversines on an Earth of
radius 6,371,000 m. -/
noncomputable def haversineDistance
    (latitude1 longitude1 latitude2 longitude2 : ℝ) : ℝ :=
  let deltaLatitude := (latitude2 - latitude1) * degreesToRadians
  let deltaLongitude := (longitude2 - longitude1) * degreesToRadians
  let latitude1Radians := latitude1 * degreesToRadians
  let latitude2Radians := latitude2 * degreesToRadians
  let haversine :=
    Real.sin (deltaLatitude / 2) ^ 2 +
      Real.cos latitude1Radians * Real.cos latitude2Radians *
        Real.sin (deltaLongitude / 2) ^ 2
  let angularDistance :=
    2 * atan2 (Real.sqrt haversine) (Real.sqrt (1 - haversine))
  earthRadiusMeters * angularDistance

/-! ## Fail-safe manager: supporting lemmas -/

/-- The escalation chain is monotone in the elapsed time, for any
threshold values. -/
lemma escalation_mono {td th tr : ℚ} {e1 e2 : ℚ} (h : e1 ≤ e2) :
    (escalation td th tr e1).sev ≤ (escalation td th tr e2).sev := by
  unfold escalation
  split_ifs <;> simp [FailSafeState.sev] <;> linarith

/-- `_handle_disconnected` keeps the disconnection start, and its threshold
chain sets the state to `escalation` of the elapsed time, leaving the state
alone exactly when no threshold was crossed. -/
lemma handleDisconnected_eq (m : FailSafeManager) (now : ℚ) :
    handleDisconnected m now =
      { m with
        disconnectedSince := some (m.disconnectedSince.getD now)
        state :=
          if escalation m.degradedThresholdSeconds m.holdingThresholdSeconds
              m.returnThresholdSeconds (now - m.disconnectedSince.getD now) =
              .CONNECTED then
            m.state
          else
            escalation m.degradedThresholdSeconds m.holdingThresholdSeconds
              m.returnThresholdSeconds (now - m.disconnectedSince.getD now) } := by
  unfold handleDisconnected escalation
  dsimp only
  split_ifs <;> simp_all

/-- A freshly constructed manager satisfies the invariant at any time. -/
lemma invAt_mk (degraded holding ret now : ℚ) :
    InvAt (mkFailSafeManager degraded holding ret) now := by
  simp [InvAt, mkFailSafeManager]

/-- Every `update_connectivity` call preserves the invariant, provided the
monotonic clock does not run backwards. -/
lemma invAt_update {m : FailSafeManager} {now : ℚ} (b : Bool) {nxt : ℚ}
    (h : InvAt m now) (hle : now ≤ nxt) :
    InvAt (updateConnectivity m b nxt) nxt := by
  cases b with
  | true => simp [updateConnectivity, handleConnected, InvAt]
  | false =>
    simp only [updateConnectivity, Bool.false_eq_true, if_false,
      handleDisconnected_eq]
    constructor
    · intro hnone
      simp at hnone
    · intro t0 ht0
      simp only [Option.some.injEq] at ht0
      subst ht0
      cases hsince : m.disconnectedSince with
      | none =>
        have hst : m.state = .CONNECTED := h.1 hsince
        simp only [hsince, Option.getD_none]
        split_ifs with hE
        · rw [hst]
          simp [FailSafeState.sev]
        · exact le_refl _
      | some t1 =>
        have hh := h.2 t1 hsince
        simp only [hsince, Option.getD_some]
        split_ifs with hE
        · exact hh.trans (escalation_mono (by linarith))
        · exact le_refl _

/-- With ascending thresholds, no threshold is crossed exactly when the
elapsed time is below the degraded threshold. -/
lemma escalation_eq_connected_iff {td th tr e : ℚ} (h1 : td < th)
    (h2 : th < tr) : escalation td th tr e = .CONNECTED ↔ e < td := by
  unfold escalation
  split_ifs <;> constructor <;> intro hx <;> first | linarith | simp_all

/-- C2: For every sequence of `update_connectivity` calls: with
`is_connected = false`, if no disconnection timer runs one is started at
the current time; otherwise (with the three thresholds ascending) the
state is set to the highest of the thresholds the elapsed disconnection
time has crossed (`escalation`), and is left alone while none is crossed;
across two successive disconnected updates at nondecreasing monotonic
times, from any state reachable by updates at earlier times (`InvAt`),
the severity never decreases.  With `is_connected = true` the state
becomes `CONNECTED` and the timer is cleared, regardless of the prior
state. -/
theorem C2_failSafe_update_connectivity :
    (∀ (m : FailSafeManager) (now : ℚ),
      (updateConnectivity m true now).state = .CONNECTED ∧
      (updateConnectivity m true now).disconnectedSince = none) ∧
    (∀ (m : FailSafeManager) (now : ℚ), m.disconnectedSince = none →
      (updateConnectivity m false now).disconnectedSince = some now) ∧
    (∀ (m : FailSafeManager) (t0 now : ℚ), m.disconnectedSince = some t0 →
      m.degradedThresholdSeconds < m.holdingThresholdSeconds →
      m.holdingThresholdSeconds < m.returnThresholdSeconds →
      (updateConnectivity m false now).disconnectedSince = some t0 ∧
      (now - t0 < m.degradedThresholdSeconds →
        (updateConnectivity m false now).state = m.state) ∧
      (m.degradedThresholdSeconds ≤ now - t0 →
        (updateConnectivity m false now).state =
          escalation m.degradedThresholdSeconds m.holdingThresholdSeconds
            m.returnThresholdSeconds (now - t0))) ∧
    (∀ (m : FailSafeManager) (now1 now2 : ℚ), InvAt m now1 → now1 ≤ now2 →
      (updateConnectivity m false now1).state.sev ≤
        (updateConnectivity (updateConnectivity m false now1) false
          now2).state.sev) := by
  refine ⟨?_, ?_, ?_, ?_⟩
  · intro m now
    simp [updateConnectivity, handleConnected]
  · intro m now h
    simp [updateConnectivity, handleDisconnected_eq, h]
  · intro m t0 now hs hdh hhr
    simp only [updateConnectivity, Bool.false_eq_true, if_false,
      handleDisconnected_eq, hs, Option.getD_some]
    refine ⟨by simp, ?_, ?_⟩
    · intro hlt
      rw [if_pos ((escalation_eq_connected_iff hdh hhr).mpr hlt)]
    · intro hge
      rw [if_neg]
      intro hc
      have := (escalation_eq_connected_iff hdh hhr).mp hc
      linarith
  · intro m now1 now2 h hle
    have hInv1 : InvAt (updateConnectivity m false now1) now1 :=
      invAt_update false h (le_refl _)
    have hsince :
        (updateConnectivity m false now1).disconnectedSince =
          some (m.disconnectedSince.getD now1) := by
      simp [updateConnectivity, handleDisconnected_eq]
    have hh := hInv1.2 _ hsince
    conv_rhs =>
      rw [show updateConnectivity (updateConnectivity m false now1) false now2 =
        handleDisconnected (updateConnectivity m false now1) now2 from rfl,
        handleDisconnected_eq]
    simp only [hsince, Option.getD_some]
    split_ifs with hE
    · exact le_refl _
    · exact hh.trans (escalation_mono (by linarith))

/-! ## Configuration validation: C3 -/

/-- C3 counterexample: the settings degraded = 60 s, holding = 15 s,
return = 60 s — where the holding threshold does not exceed the degraded
threshold and the return threshold does not exceed the holding
threshold — pass startup validation, because each field lies inside its
own pydantic range and no cross-field check exists. -/
theorem C3_counterexample_unordered_thresholds_accepted :
    validateFailSafeThresholds
        { degradedThresholdSeconds := 60
          holdingThresholdSeconds := 15
          returnThresholdSeconds := 60 } = true ∧
    ¬(FailSafeThresholdConfig.degradedThresholdSeconds
        { degradedThresholdSeconds := 60
          holdingThresholdSeconds := 15
          returnThresholdSeconds := 60 } <
      FailSafeThresholdConfig.holdingThresholdSeconds
        { degradedThresholdSeconds := 60
          holdingThresholdSeconds := 15
          returnThresholdSeconds := 60 }) := by
  decide

/-- C3 (amended): startup validation of the fail-safe thresholds accepts a
configuration exactly when each field lies within its own range —
degraded in [5, 60], holding in [15, 120], return in [60, 600] — with no
cross-field comparison, so an accepted configuration need not satisfy
degraded < holding < return; the default configuration 10 / 30 / 120 is
accepted and does satisfy it. -/
theorem C3_threshold_validation_per_field_only :
    (∀ c : FailSafeThresholdConfig,
      validateFailSafeThresholds c = true ↔
        (5 ≤ c.degradedThresholdSeconds ∧ c.degradedThresholdSeconds ≤ 60 ∧
         15 ≤ c.holdingThresholdSeconds ∧ c.holdingThresholdSeconds ≤ 120 ∧
         60 ≤ c.returnThresholdSeconds ∧ c.returnThresholdSeconds ≤ 600)) ∧
    (validateFailSafeThresholds defaultFailSafeThresholds = true ∧
      defaultFailSafeThresholds.degradedThresholdSeconds <
        defaultFailSafeThresholds.holdingThresholdSeconds ∧
      defaultFailSafeThresholds.holdingThresholdSeconds <
        defaultFailSafeThresholds.returnThresholdSeconds) := by
  constructor
  · intro c
    unfold validateFailSafeThresholds
    simp [and_assoc]
  · decide

/-! ## Store-and-forward buffer: C4 -/

/-- Buffering one more message after a batch appends it at the end of the
fold. -/
lemma bufferAll_append (buffer msgs : List (String × String))
    (msg : String × String) :
    bufferAll buffer (msgs ++ [msg]) =
      bufferMessage (bufferAll buffer msgs) msg.1 msg.2 := by
  unfold bufferAll
  rw [List.foldl_append]
  rfl

/-- Starting from an empty buffer, a batch of buffered publishes keeps
exactly the most recent `maxBufferSize` messages, in order. -/
lemma bufferAll_nil_eq_drop (msgs : List (String × String)) :
    bufferAll [] msgs = msgs.drop (msgs.length - maxBufferSize) := by
  induction msgs using List.reverseRecOn with
  | nil => rfl
  | append_singleton msgs msg ih =>
    rw [bufferAll_append, ih]
    unfold bufferMessage
    simp only [maxBufferSize] at *
    have hlen1 : (msgs ++ [msg]).length = msgs.length + 1 := by simp
    by_cases hn : msgs.length < 1000
    · have h0 : msgs.length - 1000 = 0 := by omega
      have h1 : (msgs ++ [msg]).length - 1000 = 0 := by
        rw [hlen1]
        omega
      rw [h0, h1]
      simp only [List.drop_zero]
      rw [if_neg (by omega)]
    · have hdroplen : (msgs.drop (msgs.length - 1000)).length = 1000 := by
        simp only [List.length_drop]
        omega
      rw [if_pos hdroplen.ge]
      have h2 : (msgs ++ [msg]).length - 1000 = (msgs.length - 1000) + 1 := by
        rw [hlen1]
        omega
      rw [h2, List.tail_drop,
        List.drop_append_of_le_length (by omega)]

/-- C4: the outbound buffer never exceeds 1000 entries; a publish while
disconnected appends to the buffer, evicting exactly the oldest entry
first when the buffer is already full; publishing `maxBufferSize + 1`
(that is, 1001) messages while disconnected leaves exactly the last 1000
(the first evicted, the final ones at the tail, in order); draining
republishes the whole buffer in original FIFO order and leaves it empty,
and publishes nothing on an empty buffer. -/
theorem C4_buffer_bound_and_fifo_drain :
    (∀ (buffer : List (String × String)) (topic payload : String),
      buffer.length ≤ maxBufferSize →
        (bufferMessage buffer topic payload).length ≤ maxBufferSize ∧
        (buffer.length < maxBufferSize →
          bufferMessage buffer topic payload = buffer ++ [(topic, payload)]) ∧
        (buffer.length = maxBufferSize →
          bufferMessage buffer topic payload =
            buffer.tail ++ [(topic, payload)])) ∧
    (∀ (buffer : List (String × String)) (topic payload : String),
      publishMessage false buffer topic payload =
        (bufferMessage buffer topic payload, none)) ∧
    (∀ msgs : List (String × String), msgs.length = maxBufferSize + 1 →
      bufferAll [] msgs = msgs.tail ∧
      (bufferAll [] msgs).length = maxBufferSize) ∧
    (∀ buffer : List (String × String), drainBuffer buffer = (buffer, [])) ∧
    drainBuffer [] = ([], []) := by
  refine ⟨?_, ?_, ?_, ?_, rfl⟩
  · intro buffer topic payload h
    unfold bufferMessage
    simp only [maxBufferSize] at *
    refine ⟨?_, ?_, ?_⟩
    · split_ifs with hf
      · have : (buffer.tail ++ [(topic, payload)]).length =
            buffer.length - 1 + 1 := by
          simp [List.length_tail]
        rw [this]
        omega
      · have : (buffer ++ [(topic, payload)]).length = buffer.length + 1 := by
          simp
        rw [this]
        omega
    · intro hlt
      rw [if_neg (by omega)]
    · intro heq
      rw [if_pos (by omega)]
  · intro buffer topic payload
    rfl
  · intro msgs hlen
    have h := bufferAll_nil_eq_drop msgs
    rw [hlen, Nat.add_sub_cancel_left] at h
    constructor
    · rw [h, List.drop_one]
    · rw [h]
      simp only [List.length_drop, hlen]
      omega
  · intro buffer
    unfold drainBuffer
    split_ifs with h
    · rw [List.isEmpty_iff.mp h]
    · rfl

/-- C4 witness: a publish into an empty disconnected buffer appends, and
a batch of 1001 distinct messages leaves the most recent 1000. -/
theorem C4_buffer_witness :
    bufferMessage [] "t1" "p1" = [("t1", "p1")] ∧
    bufferAll [] ((List.range (maxBufferSize + 1)).map
        (fun i => (toString i, "x"))) =
      ((List.range (maxBufferSize + 1)).map (fun i => (toString i, "x"))).tail := by
  constructor
  · exact ((C4_buffer_bound_and_fifo_drain.1 [] "t1" "p1" (by decide)).2.1
      (by decide))
  · exact (C4_buffer_bound_and_fifo_drain.2.2.1 _ (by simp)).1

/-! ## Mission executor load_segment: C5 -/

/-- C5: `load_segment` succeeds exactly when the executor state is
`IDLE`, `COMPLETED` or `ABORTED` and the segment has at least one
waypoint; from `LOADING`, `EXECUTING` or `PAUSED` it raises
(`RuntimeError`) leaving the executor untouched; for every segment with
an empty waypoint list it raises without mutating the state, the stored
segment or the waypoint index. -/
theorem C5_load_segment_accepts_exactly :
    (∀ (m : MissionExecutor) (segment : MissionSegment),
      (loadSegment m segment).2 = .ok () ↔
        ((m.state = .IDLE ∨ m.state = .COMPLETED ∨ m.state = .ABORTED) ∧
          segment.waypoints ≠ [])) ∧
    (∀ (m : MissionExecutor) (segment : MissionSegment),
      (m.state = .LOADING ∨ m.state = .EXECUTING ∨ m.state = .PAUSED) →
        loadSegment m segment = (m, .error .runtimeError)) ∧
    (∀ (m : MissionExecutor) (segment : MissionSegment),
      segment.waypoints = [] →
        (loadSegment m segment).1 = m ∧
        ∃ e, (loadSegment m segment).2 = .error e) := by
  refine ⟨?_, ?_, ?_⟩
  · intro m segment
    unfold loadSegment
    split_ifs with h1 h2
    · simp_all [List.isEmpty_iff]
    · simp_all [List.isEmpty_iff]
    · simp_all
  · intro m segment hstate
    unfold loadSegment
    rw [if_neg]
    rcases hstate with h | h | h <;> simp [h]
  · intro m segment h
    unfold loadSegment
    have he : segment.waypoints.isEmpty = true := by
      rw [h]
      rfl
    split_ifs <;> simp_all

/-- C5 witness: a fresh executor accepts a one-waypoint segment, an
executing executor rejects it, and an empty segment is rejected without
mutation. -/
theorem C5_load_segment_witness :
    (loadSegment mkMissionExecutor
        { segmentId := "s1", missionId := "m1",
          waypoints := [{ latitude := 1, longitude := 2, altitude := 30 }] }).2 =
      .ok () ∧
    loadSegment { mkMissionExecutor with state := .EXECUTING }
        { segmentId := "s1", missionId := "m1",
          waypoints := [{ latitude := 1, longitude := 2, altitude := 30 }] } =
      ({ mkMissionExecutor with state := .EXECUTING }, .error .runtimeError) ∧
    (loadSegment mkMissionExecutor
        { segmentId := "s2", missionId := "m1", waypoints := [] }).1 =
      mkMissionExecutor := by
  refine ⟨?_, ?_, ?_⟩
  · exact (C5_load_segment_accepts_exactly.1 _ _).mpr ⟨Or.inl rfl, by simp⟩
  · exact C5_load_segment_accepts_exactly.2.1 _ _ (Or.inr (Or.inl rfl))
  · exact (C5_load_segment_accepts_exactly.2.2 _ _ rfl).1

/-! ## Obstacle classification: C6, C7, C10 -/

/-- The severity bands of `_classify_severity`, for a positive detection
range: each band has an inclusive upper bound on
`distance / detection_range`, and a ratio above 4/5 classifies as no
obstacle. -/
lemma classifySeverity_bands (d dr : ℚ) (hdr : 0 < dr) :
    (d / dr ≤ 1/5 → classifySeverity d dr = .CRITICAL) ∧
    (1/5 < d / dr → d / dr ≤ 2/5 → classifySeverity d dr = .HIGH) ∧
    (2/5 < d / dr → d / dr ≤ 3/5 → classifySeverity d dr = .MEDIUM) ∧
    (3/5 < d / dr → d / dr ≤ 4/5 → classifySeverity d dr = .LOW) ∧
    (4/5 < d / dr → classifySeverity d dr = .NONE) := by
  unfold classifySeverity criticalRatioBound highRatioBound mediumRatioBound
    lowRatioBound
  rw [if_neg (by linarith)]
  dsimp only
  refine ⟨fun h1 => ?_, fun h1 h2 => ?_, fun h1 h2 => ?_, fun h1 h2 => ?_,
    fun h1 => ?_⟩ <;>
    split_ifs <;> first | rfl | linarith

/-- C6: for every depth frame and a positive detection range, a
nonpositive `min_distance` or one beyond the detection range yields no
detection; otherwise the single detection's severity follows the ratio
`min_distance / detection_range` with inclusive upper bounds 1/5
(Critical), 2/5 (High), 3/5 (Medium), 4/5 (Low), and a ratio above 4/5
yields no detection. -/
theorem C6_severity_from_distance_bands (oa : ObstacleAvoidance)
    (frame : DepthFrame) (hdr : 0 < oa.detectionRangeMeters) :
    (frame.minDistanceMeters ≤ 0 → processDepthFrame oa frame = []) ∧
    (oa.detectionRangeMeters < frame.minDistanceMeters →
      processDepthFrame oa frame = []) ∧
    (0 < frame.minDistanceMeters →
      frame.minDistanceMeters ≤ oa.detectionRangeMeters →
      ((frame.minDistanceMeters / oa.detectionRangeMeters ≤ 1/5 →
        (processDepthFrame oa frame).map ObstacleDetection.severity =
          [.CRITICAL]) ∧
       (1/5 < frame.minDistanceMeters / oa.detectionRangeMeters →
        frame.minDistanceMeters / oa.detectionRangeMeters ≤ 2/5 →
        (processDepthFrame oa frame).map ObstacleDetection.severity =
          [.HIGH]) ∧
       (2/5 < frame.minDistanceMeters / oa.detectionRangeMeters →
        frame.minDistanceMeters / oa.detectionRangeMeters ≤ 3/5 →
        (processDepthFrame oa frame).map ObstacleDetection.severity =
          [.MEDIUM]) ∧
       (3/5 < frame.minDistanceMeters / oa.detectionRangeMeters →
        frame.minDistanceMeters / oa.detectionRangeMeters ≤ 4/5 →
        (processDepthFrame oa frame).map ObstacleDetection.severity =
          [.LOW]) ∧
       (4/5 < frame.minDistanceMeters / oa.detectionRangeMeters →
        processDepthFrame oa frame = []))) := by
  have hbands := classifySeverity_bands frame.minDistanceMeters
    oa.detectionRangeMeters hdr
  refine ⟨?_, ?_, ?_⟩
  · intro h
    unfold processDepthFrame
    rw [if_pos h]
  · intro h
    unfold processDepthFrame
    rw [if_neg (by linarith), if_pos h]
  · intro h0 hle
    have hopen : ∀ s : ObstacleSeverity,
        classifySeverity frame.minDistanceMeters oa.detectionRangeMeters = s →
        s ≠ .NONE →
        (processDepthFrame oa frame).map ObstacleDetection.severity = [s] := by
      intro s hs hsne
      unfold processDepthFrame
      rw [if_neg (by linarith), if_neg (by linarith)]
      dsimp only
      rw [hs, if_pos hsne]
      simp
    refine ⟨?_, ?_, ?_, ?_, ?_⟩
    · intro h1
      exact hopen _ (hbands.1 h1) (by simp)
    · intro h1 h2
      exact hopen _ (hbands.2.1 h1 h2) (by simp)
    · intro h1 h2
      exact hopen _ (hbands.2.2.1 h1 h2) (by simp)
    · intro h1 h2
      exact hopen _ (hbands.2.2.2.1 h1 h2) (by simp)
    · intro h1
      unfold processDepthFrame
      rw [if_neg (by linarith), if_neg (by linarith)]
      dsimp only
      rw [hbands.2.2.2.2 h1]
      simp

/-- C6 witness: with the default 10 m detection range, frames at
min-distance 2 / 4 / 6 / 8 m sit exactly on the 0.2 / 0.4 / 0.6 / 0.8
boundaries and classify as Critical / High / Medium / Low, while 9 m
(ratio 0.9) yields no detection. -/
theorem C6_severity_witness :
    (processDepthFrame ⟨10, 2⟩
        { width := 640, height := 480, minDistanceMeters := 2,
          maxDistanceMeters := 12, timestampMs := 0 }).map
      ObstacleDetection.severity = [.CRITICAL] ∧
    (processDepthFrame ⟨10, 2⟩
        { width := 640, height := 480, minDistanceMeters := 4,
          maxDistanceMeters := 12, timestampMs := 0 }).map
      ObstacleDetection.severity = [.HIGH] ∧
    (processDepthFrame ⟨10, 2⟩
        { width := 640, height := 480, minDistanceMeters := 6,
          maxDistanceMeters := 12, timestampMs := 0 }).map
      ObstacleDetection.severity = [.MEDIUM] ∧
    (processDepthFrame ⟨10, 2⟩
        { width := 640, height := 480, minDistanceMeters := 8,
          maxDistanceMeters := 12, timestampMs := 0 }).map
      ObstacleDetection.severity = [.LOW] ∧
    processDepthFrame ⟨10, 2⟩
        { width := 640, height := 480, minDistanceMeters := 9,
          maxDistanceMeters := 12, timestampMs := 0 } = [] := by
  refine ⟨?_, ?_, ?_, ?_, ?_⟩
  · exact ((C6_severity_from_distance_bands ⟨10, 2⟩ _ (by norm_num)).2.2
      (by norm_num) (by norm_num)).1 (by norm_num)
  · exact ((C6_severity_from_distance_bands ⟨10, 2⟩ _ (by norm_num)).2.2
      (by norm_num) (by norm_num)).2.1 (by norm_num) (by norm_num)
  · exact ((C6_severity_from_distance_bands ⟨10, 2⟩ _ (by norm_num)).2.2
      (by norm_num) (by norm_num)).2.2.1 (by norm_num) (by norm_num)
  · exact ((C6_severity_from_distance_bands ⟨10, 2⟩ _ (by norm_num)).2.2
      (by norm_num) (by norm_num)).2.2.2.1 (by norm_num) (by norm_num)
  · exact ((C6_severity_from_distance_bands ⟨10, 2⟩ _ (by norm_num)).2.2
      (by norm_num) (by norm_num)).2.2.2.2 (by norm_num)

/-- C7: for every Medium- or Low-severity detection closer than the
minimum clearance, the computed maneuver's direction follows the bearing
with a ±15° dead-zone: bearing above +15° gives `lateral_left`, below
−15° gives `lateral_right`, and any bearing in [−15°, +15°] (the
endpoints included) gives `climb` instead. -/
theorem C7_lateral_direction_deadzone (oa : ObstacleAvoidance)
    (det : ObstacleDetection)
    (hsev : det.severity = .MEDIUM ∨ det.severity = .LOW)
    (hdist : det.distanceMeters < oa.minimumClearanceMeters) :
    (bearingCenterThresholdDegrees < det.bearingDegrees →
      (computeAvoidance oa [det]).map AvoidanceManeuver.maneuverType =
        some maneuverLateralLeft) ∧
    (det.bearingDegrees < -bearingCenterThresholdDegrees →
      (computeAvoidance oa [det]).map AvoidanceManeuver.maneuverType =
        some maneuverLateralRight) ∧
    (-bearingCenterThresholdDegrees ≤ det.bearingDegrees →
      det.bearingDegrees ≤ bearingCenterThresholdDegrees →
      (computeAvoidance oa [det]).map AvoidanceManeuver.maneuverType =
        some maneuverClimb) := by
  have hne : det.severity ≠ .NONE := by
    rcases hsev with h | h <;> simp [h]
  have hsorted : sortByDistance [det] = [det] := rfl
  have hsel : computeAvoidance oa [det] = some (selectManeuver det) := by
    unfold computeAvoidance
    rw [hsorted]
    simp only [List.isEmpty_cons, Bool.false_eq_true, if_false]
    rw [if_neg hne, if_neg (not_le.mpr hdist)]
  have hman : (selectManeuver det).maneuverType =
      chooseLateralDirection det.bearingDegrees := by
    unfold selectManeuver
    rcases hsev with h | h <;> simp [h]
  have hmap : (computeAvoidance oa [det]).map AvoidanceManeuver.maneuverType =
      some (chooseLateralDirection det.bearingDegrees) := by
    rw [hsel, Option.map_some', hman]
  refine ⟨?_, ?_, ?_⟩
  · intro hb
    rw [hmap]
    unfold chooseLateralDirection
    rw [if_pos hb]
  · intro hb
    have hpos : (0 : ℚ) < bearingCenterThresholdDegrees := by
      norm_num [bearingCenterThresholdDegrees]
    rw [hmap]
    unfold chooseLateralDirection
    rw [if_neg (by linarith), if_pos hb]
  · intro hb1 hb2
    rw [hmap]
    unfold chooseLateralDirection
    rw [if_neg (not_lt.mpr hb2), if_neg (not_lt.mpr hb1)]

/-- C7 witness: with a 2 m clearance and a Medium detection at 1 m,
bearings 20° / −20° / 15° / −15° give lateral-left / lateral-right /
climb / climb. -/
theorem C7_lateral_direction_witness :
    (computeAvoidance ⟨10, 2⟩
        [{ distanceMeters := 1, bearingDegrees := 20, severity := .MEDIUM,
           widthMeters := 1, heightMeters := 3/4 }]).map
      AvoidanceManeuver.maneuverType = some maneuverLateralLeft ∧
    (computeAvoidance ⟨10, 2⟩
        [{ distanceMeters := 1, bearingDegrees := -20, severity := .MEDIUM,
           widthMeters := 1, heightMeters := 3/4 }]).map
      AvoidanceManeuver.maneuverType = some maneuverLateralRight ∧
    (computeAvoidance ⟨10, 2⟩
        [{ distanceMeters := 1, bearingDegrees := 15, severity := .LOW,
           widthMeters := 1, heightMeters := 3/4 }]).map
      AvoidanceManeuver.maneuverType = some maneuverClimb ∧
    (computeAvoidance ⟨10, 2⟩
        [{ distanceMeters := 1, bearingDegrees := -15, severity := .MEDIUM,
           widthMeters := 1, heightMeters := 3/4 }]).map
      AvoidanceManeuver.maneuverType = some maneuverClimb := by
  refine ⟨?_, ?_, ?_, ?_⟩
  · exact (C7_lateral_direction_deadzone ⟨10, 2⟩
      { distanceMeters := 1, bearingDegrees := 20, severity := .MEDIUM,
        widthMeters := 1, heightMeters := 3/4 } (Or.inl rfl)
      (by norm_num)).1 (by norm_num [bearingCenterThresholdDegrees])
  · exact (C7_lateral_direction_deadzone ⟨10, 2⟩
      { distanceMeters := 1, bearingDegrees := -20, severity := .MEDIUM,
        widthMeters := 1, heightMeters := 3/4 } (Or.inl rfl)
      (by norm_num)).2.1 (by norm_num [bearingCenterThresholdDegrees])
  · exact (C7_lateral_direction_deadzone ⟨10, 2⟩
      { distanceMeters := 1, bearingDegrees := 15, severity := .LOW,
        widthMeters := 1, heightMeters := 3/4 } (Or.inr rfl)
      (by norm_num)).2.2 (by norm_num [bearingCenterThresholdDegrees])
      (by norm_num [bearingCenterThresholdDegrees])
  · exact (C7_lateral_direction_deadzone ⟨10, 2⟩
      { distanceMeters := 1, bearingDegrees := -15, severity := .MEDIUM,
        widthMeters := 1, heightMeters := 3/4 } (Or.inl rfl)
      (by norm_num)).2.2 (by norm_num [bearingCenterThresholdDegrees])
      (by norm_num [bearingCenterThresholdDegrees])

/-- C10: a single aggregate depth frame never produces more than one
obstacle detection, for any classifier configuration. -/
theorem C10_at_most_one_detection (oa : ObstacleAvoidance)
    (frame : DepthFrame) : (processDepthFrame oa frame).length ≤ 1 := by
  unfold processDepthFrame
  dsimp only
  split_ifs <;> simp

/-! ## MAVLink bridge guards: C8 -/

/-- C8: every bridge operation other than `connect` / `disconnect` —
`get_telemetry`, `arm`, `disarm`, `set_mode`, `goto`, `takeoff`, `land`
and `send_command` — called while the bridge state is `DISCONNECTED`,
raises a connection error and leaves the whole bridge (connection and
state) unchanged. -/
theorem C8_disconnected_operations_raise (b : MavlinkBridge)
    (h : b.state = .DISCONNECTED) :
    getTelemetry b = (b, .error .connectionError) ∧
    arm b = (b, .error .connectionError) ∧
    disarm b = (b, .error .connectionError) ∧
    (∀ mode, setMode b mode = (b, .error .connectionError)) ∧
    (∀ la lo al, goto b la lo al = (b, .error .connectionError)) ∧
    (∀ al, takeoff b al = (b, .error .connectionError)) ∧
    land b = (b, .error .connectionError) ∧
    (∀ cmd, sendCommand b cmd = (b, .error .connectionError)) := by
  have hreq : requireConnection b = .error .connectionError := by
    unfold requireConnection
    rw [if_pos (Or.inr h)]
  have hset : ∀ mode, setMode b mode = (b, .error .connectionError) := by
    intro mode
    unfold setMode
    rw [hreq]
  refine ⟨?_, ?_, ?_, hset, ?_, ?_, ?_, ?_⟩
  · unfold getTelemetry
    rw [hreq]
  · unfold arm
    rw [hreq]
  · unfold disarm
    rw [hreq]
  · intro la lo al
    unfold goto
    rw [hreq]
  · intro al
    unfold takeoff
    rw [hreq]
  · unfold land
    rw [hset "LAND"]
  · intro cmd
    unfold sendCommand
    rw [hreq]

/-- C8 witness: on a bridge with no connection in state `DISCONNECTED`,
`get_telemetry`, `arm` and `send_command` all raise the connection error
and leave the bridge unchanged. -/
theorem C8_disconnected_witness :
    getTelemetry ⟨none, .DISCONNECTED⟩ =
      (⟨none, .DISCONNECTED⟩, .error .connectionError) ∧
    arm ⟨none, .DISCONNECTED⟩ =
      (⟨none, .DISCONNECTED⟩, .error .connectionError) ∧
    sendCommand ⟨none, .DISCONNECTED⟩
        { commandType := "GOTO", parameters := [] } =
      (⟨none, .DISCONNECTED⟩, .error .connectionError) :=
  ⟨(C8_disconnected_operations_raise ⟨none, .DISCONNECTED⟩ rfl).1,
   (C8_disconnected_operations_raise ⟨none, .DISCONNECTED⟩ rfl).2.1,
   (C8_disconnected_operations_raise ⟨none, .DISCONNECTED⟩ rfl).2.2.2.2.2.2.2
     { commandType := "GOTO", parameters := [] }⟩

/-! ## Haversine identities: C9 -/

/-- C9: the haversine distance used for arrival detection is computed on
a spherical Earth of radius 6,371,000 m, returns 0 for identical
coordinates, and is symmetric in its two endpoints. -/
theorem C9_haversine_zero_and_symmetric :
    (∀ latitude longitude : ℝ,
      haversineDistance latitude longitude latitude longitude = 0) ∧
    (∀ la1 lo1 la2 lo2 : ℝ,
      haversineDistance la1 lo1 la2 lo2 = haversineDistance la2 lo2 la1 lo1) ∧
    earthRadiusMeters = 6371000 := by
  refine ⟨?_, ?_, rfl⟩
  · intro la lo
    simp [haversineDistance, atan2, Real.sqrt_one, Real.arctan_zero,
      zero_lt_one]
  · intro la1 lo1 la2 lo2
    have h1 : ∀ x y : ℝ,
        Real.sin ((x - y) * degreesToRadians / 2) ^ 2 =
          Real.sin ((y - x) * degreesToRadians / 2) ^ 2 := by
      intro x y
      have hx : (x - y) * degreesToRadians / 2 =
          -((y - x) * degreesToRadians / 2) := by ring
      rw [hx, Real.sin_neg]
      ring
    unfold haversineDistance
    dsimp only
    rw [h1 la2 la1, h1 lo2 lo1, mul_comm (Real.cos (la1 * degreesToRadians))
      (Real.cos (la2 * degreesToRadians))]

/-! ## Mission executor polling: C1

`_navigate_to_waypoint` returns `None` both when it was interrupted by an
observed `PAUSED`/`ABORTED` and when the drone arrived, and `execute`
increments `_current_waypoint_index` unconditionally after the call; the
two evaluations below exhibit the consequence on concrete inputs. -/

/-- C1 (divergence from the claim, evaluated on the code): an executor in
`EXECUTING` with a freshly loaded segment, whose first navigation poll
observes `PAUSED` before any arrival, does NOT return with the waypoint
index unchanged.  With a two-waypoint segment, `execute` returns paused
but with the index already advanced from 0 to 1, skipping the waypoint
that was being navigated; with a one-waypoint segment and `ABORTED`
observed, the index advance empties the loop and `execute` even
overwrites the state with `COMPLETED`. -/
theorem C1_pause_during_poll_advances_index :
    execute (fun _ _ => false)
        { state := .EXECUTING,
          currentSegment := some
            { segmentId := "seg-1", missionId := "mis-1",
              waypoints := [{ latitude := 0, longitude := 0, altitude := 10 },
                            { latitude := 1, longitude := 1, altitude := 10 }] },
          currentWaypointIndex := 0,
          arrivalThresholdMeters := 2 }
        [{ state := .PAUSED, telemetry := none }] =
      ({ state := .PAUSED,
         currentSegment := some
           { segmentId := "seg-1", missionId := "mis-1",
             waypoints := [{ latitude := 0, longitude := 0, altitude := 10 },
                           { latitude := 1, longitude := 1, altitude := 10 }] },
         currentWaypointIndex := 1,
         arrivalThresholdMeters := 2 }, .ok ()) ∧
    execute (fun _ _ => false)
        { state := .EXECUTING,
          currentSegment := some
            { segmentId := "seg-1", missionId := "mis-1",
              waypoints := [{ latitude := 0, longitude := 0, altitude := 10 }] },
          currentWaypointIndex := 0,
          arrivalThresholdMeters := 2 }
        [{ state := .ABORTED, telemetry := none }] =
      ({ state := .COMPLETED,
         currentSegment := some
           { segmentId := "seg-1", missionId := "mis-1",
             waypoints := [{ latitude := 0, longitude := 0, altitude := 10 }] },
         currentWaypointIndex := 1,
         arrivalThresholdMeters := 2 }, .ok ()) := by
  constructor <;> simp [execute, executeLoop, navigateLoop]

end DroneEdge
